import Mathlib

/-!
Shallow embedding of the AgentBeats evaluation core
(src/agentbeats executor.py and messenger.py, and
src/agentbeats/evals graph.py, llm_judge.py and text_metrics.py).

Numeric scores are modelled by `ℚ` (the Python code uses floats, but every
value the claims exercise is an exact small rational for which float and
rational arithmetic agree).  Python dictionaries returned by the tier
helpers are modelled by dedicated inductive types; the JSON/`model_dump`
serialisation layer is treated as glue.  Remote network calls (A2A client
streams, the remote LLM judge) are modelled by environment oracles: the
embedding receives the outcome of every remote interaction as data and
computes exactly what the Python control flow computes from it.
-/

namespace AgentBeats

/-! ### Kernel-computable rational arithmetic

`Rat.add`, `Rat.mul`, `Rat.sub` and `Rat.div` are `@[irreducible]` in
Batteries, so terms built from them cannot be evaluated by `decide`.  The
clones below are defined through `Rat.divInt` (which does reduce) and proved
equal to the standard operations, so the arithmetic of the embedding is the
ordinary rational arithmetic while staying executable in the kernel. -/

/-- Rational addition, computable by the kernel; equals `a + b`. -/
def qAdd (a b : ℚ) : ℚ :=
  Rat.divInt (a.num * (b.den : ℤ) + b.num * (a.den : ℤ)) ((a.den : ℤ) * (b.den : ℤ))

/-- Rational subtraction, computable by the kernel; equals `a - b`. -/
def qSub (a b : ℚ) : ℚ :=
  Rat.divInt (a.num * (b.den : ℤ) - b.num * (a.den : ℤ)) ((a.den : ℤ) * (b.den : ℤ))

/-- Rational multiplication, computable by the kernel; equals `a * b`. -/
def qMul (a b : ℚ) : ℚ :=
  Rat.divInt (a.num * b.num) ((a.den : ℤ) * (b.den : ℤ))

/-- Rational division, computable by the kernel; equals `a / b`
(with the `x / 0 = 0` convention both share). -/
def qDiv (a b : ℚ) : ℚ :=
  Rat.divInt (a.num * (b.den : ℤ)) ((a.den : ℤ) * b.num)

/-- Model of `messenger.TraceData`: one record of a message/response exchange. -/
structure TraceData where
  timestamp : String
  agent_url : String
  message : String
  response : String
  status_code : Option Nat := none
  error : Option String := none
  task_id : Option String := none
deriving DecidableEq, Repr

/-- Python truthiness of an optional string (`None` and `""` are falsy). -/
def pyTruthy (o : Option String) : Bool :=
  match o with
  | none => false
  | some s => s != ""

/-- Python `list or None` coercion used for `strengths if strengths else None`. -/
def pyOptList (l : List String) : Option (List String) :=
  if l.isEmpty then none else some l

/-! ## Similarity scorer (`evals/text_metrics.py`) -/

/-- Model of `text_metrics.TextMetricsResult`. -/
structure TextMetricsResult where
  similarity_score : ℚ
  response : String
  reference : String
  method : Option String := none
  details : Option (List (String × ℚ)) := none
deriving DecidableEq, Repr

/-- Python `str.lower()` (ASCII-adequate model). -/
def pyLower (s : String) : String :=
  String.mk (s.data.map Char.toLower)

/-- Helper for `str.split()`: groups maximal runs of non-whitespace. -/
def splitWsAux : List Char → List Char → List String
  | [], acc => if acc.isEmpty then [] else [String.mk acc.reverse]
  | c :: cs, acc =>
    if c.isWhitespace then
      if acc.isEmpty then splitWsAux cs []
      else String.mk acc.reverse :: splitWsAux cs []
    else splitWsAux cs (c :: acc)

/-- Python `str.split()` with no argument: split on whitespace runs, no empties. -/
def pySplit (s : String) : List String := splitWsAux s.data []

/-- Model of `TextMetrics.evaluate(response, reference)`.  Token sets are modelled by
deduplicated lists (only cardinalities of intersection/union are used). -/
def TextMetrics.evaluate (response reference : String) : TextMetricsResult :=
  if response = "" ∧ reference = "" then
    { similarity_score := 1, response := response, reference := reference,
      method := some "exact",
      details := some [("token_overlap", 1), ("length_ratio", 1)] }
  else if response = "" ∨ reference = "" then
    { similarity_score := 0, response := response, reference := reference,
      method := some "exact",
      details := some [("token_overlap", 0), ("length_ratio", 0)] }
  else if response = reference then
    { similarity_score := 1, response := response, reference := reference,
      method := some "exact",
      details := some [("token_overlap", 1), ("length_ratio", 1)] }
  else
    let response_tokens := (pySplit (pyLower response)).dedup
    let reference_tokens := (pySplit (pyLower reference)).dedup
    let token_overlap : ℚ :=
      if response_tokens ≠ [] ∨ reference_tokens ≠ [] then
        let inter := (response_tokens.filter (fun t => t ∈ reference_tokens)).length
        let uni := (response_tokens ++
          reference_tokens.filter (fun t => t ∉ response_tokens)).length
        if uni > 0 then qDiv (inter : ℚ) (uni : ℚ) else 0
      else 1
    let len_response := response.length
    let len_reference := reference.length
    let maxLen := if len_response < len_reference then len_reference else len_response
    let minLen := if len_response < len_reference then len_response else len_reference
    let length_ratio : ℚ :=
      if maxLen > 0 then qDiv (minLen : ℚ) (maxLen : ℚ) else 1
    -- 0.7 * token_overlap + 0.3 * length_ratio
    let similarity_score :=
      qAdd (qMul (mkRat 7 10) token_overlap) (qMul (mkRat 3 10) length_ratio)
    -- max(0.0, min(1.0, s)), written with `if` so the kernel can evaluate it
    let similarity_score : ℚ :=
      if similarity_score ≤ 1 then
        (if similarity_score < 0 then 0 else similarity_score)
      else 1
    { similarity_score := similarity_score, response := response,
      reference := reference, method := some "token_overlap",
      details := some [("token_overlap", token_overlap),
                       ("length_ratio", length_ratio)] }

/-! ## Judgment scorer (`evals/llm_judge.py`) -/

/-- Model of `llm_judge.LLMJudgment`. -/
structure LLMJudgment where
  overall_score : ℚ
  reasoning : String
  coordination_quality : Option String := none
  strengths : Option (List String) := none
  weaknesses : Option (List String) := none
deriving DecidableEq, Repr

/-- Count of traces with `status_code == 200 and not trace.error`. -/
def countSuccess (traces : List TraceData) : ℕ :=
  (traces.filter (fun t =>
    decide (t.status_code = some 200) && !(pyTruthy t.error))).length

/-- Count of traces with a truthy `error`. -/
def countError (traces : List TraceData) : ℕ :=
  (traces.filter (fun t => pyTruthy t.error)).length

/-- Floor of a rational, written with `Int.fdiv` so the kernel can evaluate it. -/
def ratFloor (q : ℚ) : ℤ := q.num.fdiv (q.den : ℤ)

/-- Round-half-to-even on rationals, the rounding used by Python `format`. -/
def roundHalfEven (q : ℚ) : ℤ :=
  let f := ratFloor q
  let frac := qSub q (f : ℚ)
  if frac < mkRat 1 2 then f
  else if mkRat 1 2 < frac then f + 1
  else if f % 2 = 0 then f else f + 1

/-- Python `f-string` percent formatting with zero decimals. -/
def formatPercent (q : ℚ) : String :=
  toString (roundHalfEven (qMul q 100)) ++ "%"

/-- Model of the fallback evaluator of `LLMJudge`: deterministic rule-based judgment. -/
def fallback_evaluate (traces : List TraceData) : LLMJudgment :=
  let total_interactions := traces.length
  let successful_interactions := countSuccess traces
  let error_count := countError traces
  let success_rate : ℚ :=
    if total_interactions > 0 then
      qDiv (successful_interactions : ℚ) (total_interactions : ℚ)
    else 0
  let overall_score := success_rate
  let band :=
    if success_rate ≥ mkRat 9 10 then
      ("Excellent",
       "Agent demonstrated excellent coordination with " ++
         formatPercent success_rate ++ " success rate across " ++
         toString total_interactions ++ " interactions",
       ["High success rate", "Consistent performance", "Reliable communication"],
       if success_rate = 1 then [] else ["Minor occasional failures"])
    else if success_rate ≥ mkRat 7 10 then
      ("Good",
       "Agent demonstrated good coordination with " ++
         formatPercent success_rate ++ " success rate across " ++
         toString total_interactions ++ " interactions",
       ["Mostly reliable", "Acceptable performance"],
       ["Some failed interactions", "Room for improvement"])
    else if success_rate ≥ mkRat 1 2 then
      ("Fair",
       "Agent demonstrated fair coordination with " ++
         formatPercent success_rate ++ " success rate across " ++
         toString total_interactions ++ " interactions",
       ["Basic functionality working"],
       ["High failure rate", "Inconsistent reliability", "Needs improvement"])
    else
      ("Poor",
       "Agent demonstrated poor coordination with " ++
         formatPercent success_rate ++ " success rate across " ++
         toString total_interactions ++ " interactions",
       ([] : List String),
       ["Very high failure rate", "Unreliable communication",
        "Significant coordination issues"])
  let reasoning :=
    if error_count > 0 then
      band.2.1 ++ ". " ++ toString error_count ++ " errors encountered"
    else band.2.1
  { overall_score := overall_score, reasoning := reasoning,
    coordination_quality := some band.1,
    strengths := pyOptList band.2.2.1,
    weaknesses := pyOptList band.2.2.2 }

/-- The judgment `LLMJudge.evaluate` returns on an empty trace list. -/
def emptyJudgment : LLMJudgment :=
  { overall_score := 0,
    reasoning := "No traces available for evaluation",
    coordination_quality := some "None",
    strengths := some [],
    weaknesses := some ["No agent interactions captured"] }

/-- Model of `LLMJudge.evaluate`.  The remote LLM path is abstracted by an oracle:
`remote = some j` means the configured remote judge returned a response that
parsed and validated to `j`; `remote = none` covers every other case (no API
key, transport failure, timeout, JSON parse failure, validation failure), all
of which the source resolves by falling back to the rule-based evaluator. -/
def LLMJudge.evaluate (remote : Option LLMJudgment)
    (traces : List TraceData) : LLMJudgment :=
  if traces.isEmpty then emptyJudgment
  else
    match remote with
    | some j => j
    | none => fallback_evaluate traces

/-- The success rate computed by the fallback evaluator. -/
def successRate (traces : List TraceData) : ℚ :=
  if traces.length > 0 then qDiv (countSuccess traces : ℚ) (traces.length : ℚ)
  else 0

/-! ## Graph scorer (`evals/graph.py`) -/

/-- Model of `graph.GraphMetrics`. -/
structure GraphMetrics where
  node_count : ℕ
  edge_count : ℕ
  avg_degree : Option ℚ := none
  density : Option ℚ := none
  centrality_scores : Option (List (String × ℚ)) := none
deriving DecidableEq, Repr

/-- The interaction digraph: node list and (unweighted) edge list, both in
insertion order and duplicate-free, as `networkx.DiGraph` keeps them.  Edge
weights are computed by the source but never reported, so they are omitted. -/
structure DiGraphModel where
  nodes : List String
  edges : List (String × String)
deriving DecidableEq, Repr

/-- Insertion in the style of `graph.add_node`: append if absent. -/
def addNode (ns : List String) (x : String) : List String :=
  if x ∈ ns then ns else ns ++ [x]

/-- Model of `GraphEvaluator.build_graph`: one node per distinct endpoint, a synthetic
"evaluator" node when any trace exists, and one edge evaluator→endpoint per
distinct endpoint. -/
def build_graph (traces : List TraceData) : DiGraphModel :=
  let ns := traces.foldl (fun ns t => addNode ns t.agent_url) []
  let ns := traces.foldl (fun ns _ => addNode ns "evaluator") ns
  let es := traces.foldl
    (fun es t =>
      if ("evaluator", t.agent_url) ∈ es then es else es ++ [("evaluator", t.agent_url)])
    []
  { nodes := ns, edges := es }

/-- The `networkx` degree of a node: out-degree plus in-degree (self-loops count
twice). -/
def nodeDegree (es : List (String × String)) (v : String) : ℕ :=
  (es.filter (fun e => e.1 = v)).length + (es.filter (fun e => e.2 = v)).length

/-- Model of `GraphEvaluator.compute_metrics` on an optional built graph (`none` models
`metrics()` before `build()`, which returns the zero-valued result).
`nx.degree_centrality` divides by `n - 1`; for `n = 1` the Python call raises
`ZeroDivisionError` (caught by the tier wrapper of the executor); in this pure
model that rational division yields `0` instead, a case no claim exercises. -/
def compute_metrics (g? : Option DiGraphModel) : GraphMetrics :=
  match g? with
  | none => { node_count := 0, edge_count := 0 }
  | some g =>
    let n := g.nodes.length
    let m := g.edges.length
    let avg_degree :=
      if n > 0 then
        some (qDiv ((g.nodes.map (nodeDegree g.edges)).sum : ℚ) (n : ℚ))
      else none
    let density :=
      if n > 1 then some (qDiv (m : ℚ) (qMul (n : ℚ) (qSub (n : ℚ) 1))) else none
    let centrality_scores :=
      if n > 0 then
        some (g.nodes.map (fun v => (v, qDiv (nodeDegree g.edges v : ℚ) (qSub (n : ℚ) 1))))
      else none
    { node_count := n, edge_count := m, avg_degree := avg_degree,
      density := density, centrality_scores := centrality_scores }

/-- Runs `build_graph` followed by `get_metrics`, as tier 1 of the executor does. -/
def graph_metrics (traces : List TraceData) : GraphMetrics :=
  compute_metrics (some (build_graph traces))

/-! ## Trace recorder (`messenger.py`) -/

/-- One event of the event stream of a remote task, after attribute inspection:
`state = some s` iff the event has a `state` attribute with value `s`;
`output = some (some s)` iff it has a non-`None` `output` whose `str` is `s`,
`some none` for an `output` attribute that is `None`. -/
structure StreamEvent where
  state : Option String := none
  output : Option (Option String) := none
deriving DecidableEq, Repr

/-- Everything `talk_to_agent` observes from the A2A transport, as data:
either an exception (from connection, send, or event iteration — `tid` is the
task id if it was extracted before the failure) or a complete event stream. -/
inductive TalkOutcome where
  | raise (tid : Option String) (err : String)
  | stream (tid : Option String) (events : List StreamEvent)
deriving DecidableEq, Repr

/-- The `str(event.output)` fallback chain of the source: empty string unless
the event has a non-`None` `output`. -/
def outputText (e : StreamEvent) : String :=
  match e.output with
  | some (some s) => s
  | _ => ""

/-- The `async for` loop body: the response of the first event whose `state`
equals `TaskState.completed`, or `none` when the stream ends first. -/
def findResponse : List StreamEvent → Option String
  | [] => none
  | e :: rest =>
    if e.state = some "completed" then some (outputText e) else findResponse rest

/-- Model of `Messenger.talk_to_agent`, returning the raised-or-returned result and the
single appended trace.  On an exception the error trace is appended and the
exception re-raised; otherwise a status-200 trace is appended whose response
is the payload of the terminal event, or the empty string when no terminal event occurred. -/
def talk_to_agent (o : TalkOutcome) (agent_url message timestamp : String) :
    Except String String × TraceData :=
  match o with
  | .raise tid e =>
    (.error e,
     { timestamp := timestamp, agent_url := agent_url, message := message,
       response := "", error := some e, task_id := tid })
  | .stream tid events =>
    let response_text := (findResponse events).getD ""
    (.ok response_text,
     { timestamp := timestamp, agent_url := agent_url, message := message,
       response := response_text, status_code := some 200, task_id := tid })

/-- A cached A2A client, as `Messenger.close` can observe it: whether
`getattr(client, "close", None)` is callable, and whether awaiting it raises. -/
structure ClientModel where
  hasClose : Bool
  closeFails : Option String
deriving DecidableEq, Repr

/-- The mutable state of one `Messenger`: the trace list and the
endpoint→client cache. -/
structure Messenger where
  traces : List TraceData := []
  clients : List (String × ClientModel) := []
deriving DecidableEq, Repr

/-- The loop of `Messenger.close`: attempt `close()` on every cached client
that has one, recording `(endpoint, succeeded?)`; a failure is swallowed and
iteration continues with the remaining clients. -/
def closeClients : List (String × ClientModel) → List (String × Bool)
  | [] => []
  | (n, c) :: rest =>
    if c.hasClose then (n, c.closeFails.isNone) :: closeClients rest
    else closeClients rest

/-- Model of `Messenger.close`: close every cached client, then clear the cache.
Returns the new state and the list of close attempts made. -/
def Messenger.close (st : Messenger) : Messenger × List (String × Bool) :=
  ({ st with clients := [] }, closeClients st.clients)

/-- The state after `Messenger.close` (discarding the attempt log). -/
def Messenger.closeState (st : Messenger) : Messenger := st.close.1

/-- Model of `Messenger.get_traces`. -/
def Messenger.get_traces (st : Messenger) : List TraceData := st.traces

/-! ## Task coordinator (`executor.py`) -/

/-- Model of `executor.TaskStatus`. -/
structure TaskStatus where
  task_id : String
  state : String
  progress : Option ℚ := none
  message : Option String := none
  error : Option String := none
deriving DecidableEq, Repr

/-- The outcome of one `messenger.talk_to_agent` call inside the send loop,
as the executor observes it: a returned response (with the correlation id the
trace carries) or a raised exception (caught by the bare catch-all of the loop). -/
inductive SendOutcome where
  | success (tid : Option String) (response : String)
  | failure (tid : Option String) (err : String)
deriving DecidableEq, Repr

/-- Locations in the `try` block of `Executor.execute` at which an
orchestration-level exception (one not caught by the per-message or per-tier
wrappers) can arise. -/
inductive OrchPoint where
  | beforeSends
  | afterSends
  | afterTier1
  | afterTier2
  | afterTier3
deriving DecidableEq, Repr

/-- The environment of one `Executor.execute` call: all outside-world
behaviour as data.  `send i` is the outcome of the `i`-th message send,
`time i` the wall-clock timestamp it records; `tierNRaise = some e` means
the evaluator of tier N raises an exception with message `e` (caught by
`_evaluate_tierN`); `judgeRemote = some j` means the remote LLM judge is
configured and returns a response parsing to `j` (`none` covers no API key
and every remote failure, all of which fall back to rule-based scoring);
`orchRaise = some (p, e)` injects an uncaught orchestration exception at
point `p`. -/
structure ExecEnv where
  send : ℕ → SendOutcome
  time : ℕ → String
  tier1Raise : Option String := none
  tier2Raise : Option String := none
  tier3Raise : Option String := none
  judgeRemote : Option LLMJudgment := none
  orchRaise : Option (OrchPoint × String) := none

/-- Result of `_evaluate_tier1`: the metrics dict, or the
error dict (error key `e`, metrics key None) when the evaluator raised. -/
inductive Tier1Result where
  | metrics (m : GraphMetrics)
  | err (e : String)
deriving DecidableEq, Repr

/-- Result of `_evaluate_tier2`: the judgment dict, or the
error dict (error key `e`, judgment key None) when the evaluator raised. -/
inductive Tier2Result where
  | judgment (j : LLMJudgment)
  | err (e : String)
deriving DecidableEq, Repr

/-- Result of `_evaluate_tier3`: the similarity dict, or an
error dict carrying an error key `e` and a similarity_score key `s`. -/
inductive Tier3Result where
  | metrics (r : TextMetricsResult)
  | errScore (e : String) (score : ℚ)
deriving DecidableEq, Repr

/-- The `"error"` entry of a tier-1 result dict, if any. -/
def Tier1Result.errorKey : Tier1Result → Option String
  | .err e => some e
  | .metrics _ => none

/-- The `"error"` entry of a tier-2 result dict, if any. -/
def Tier2Result.errorKey : Tier2Result → Option String
  | .err e => some e
  | .judgment _ => none

/-- The `"error"` entry of a tier-3 result dict, if any. -/
def Tier3Result.errorKey : Tier3Result → Option String
  | .errScore e _ => some e
  | .metrics _ => none

/-- Model of the tier-1 wrapper of `Executor`. -/
def evaluate_tier1 (raised : Option String) (traces : List TraceData) : Tier1Result :=
  match raised with
  | some e => .err e
  | none => .metrics (graph_metrics traces)

/-- Model of the tier-2 wrapper of `Executor`. -/
def evaluate_tier2 (raised : Option String) (remote : Option LLMJudgment)
    (traces : List TraceData) : Tier2Result :=
  match raised with
  | some e => .err e
  | none => .judgment (LLMJudge.evaluate remote traces)

/-- Model of the tier-3 wrapper of `Executor`. -/
def evaluate_tier3 (raised : Option String) (traces : List TraceData) : Tier3Result :=
  match raised with
  | some e => .errScore e 0
  | none =>
    match traces with
    | [] => .errScore "No traces available" 0
    | [t] => .metrics (TextMetrics.evaluate t.response t.response)
    | t0 :: rest => .metrics (TextMetrics.evaluate (rest.getLastD t0).response t0.response)

/-- Model of `executor.TaskResult` (the wall-clock `duration_seconds` and the unused
`artifacts` field are outside the model). -/
structure TaskResult where
  task_id : String
  state : String
  results : Option (Tier1Result × Tier2Result × Tier3Result) := none
deriving DecidableEq, Repr

/-- The task-table writes of `Executor.execute`, one definition per source
`TaskStatus(...)` literal. -/
def pendingStatus (tid : String) : TaskStatus :=
  { task_id := tid, state := "pending", message := some "Task created" }

def workingStart (tid : String) : TaskStatus :=
  { task_id := tid, state := "working", progress := some 0,
    message := some "Starting evaluation" }

def msgStatus (tid : String) (i n : ℕ) : TaskStatus :=
  { task_id := tid, state := "working",
    progress := some (qDiv ((i : ℚ) + 1) ((n : ℚ) + 3)),
    message := some ("Processed message " ++ toString (i + 1) ++ "/" ++ toString n) }

def tierStatus (tid : String) (p : ℚ) (m : String) : TaskStatus :=
  { task_id := tid, state := "working", progress := some p, message := some m }

def completedStatus (tid : String) : TaskStatus :=
  { task_id := tid, state := "completed", progress := some 1,
    message := some "Evaluation completed successfully" }

def failedStatus (tid : String) (e : String) : TaskStatus :=
  { task_id := tid, state := "failed", message := some "Task execution failed",
    error := some e }

def canceledStatus (tid : String) : TaskStatus :=
  { task_id := tid, state := "canceled", message := some "Task canceled by user" }

/-- Does the injected orchestration exception fire at point `p`? -/
def orchHit (env : ExecEnv) (p : OrchPoint) : Option String :=
  match env.orchRaise with
  | some (q, e) => if q = p then some e else none
  | none => none

/-- The trace appended for the `i`-th message of the send loop. -/
def sendTrace (env : ExecEnv) (agent_url : String) (i : ℕ) (message : String) :
    TraceData :=
  match env.send i with
  | .success tid r =>
    { timestamp := env.time i, agent_url := agent_url, message := message,
      response := r, status_code := some 200, task_id := tid }
  | .failure tid e =>
    { timestamp := env.time i, agent_url := agent_url, message := message,
      response := "", error := some e, task_id := tid }

/-- The traces accumulated by the per-task messenger over the send loop
(every attempt appends exactly one trace, success or failure). -/
def sendTraces (env : ExecEnv) (agent_url : String) (messages : List String) :
    List TraceData :=
  messages.enum.map (fun p => sendTrace env agent_url p.1 p.2)

/-- The `try` block of `Executor.execute`: the task-table writes it performs
(in order) and either the aggregated tier results or the message of the
orchestration exception that escaped. -/
def executeTry (env : ExecEnv) (tid agent_url : String)
    (messages : Option (List String)) :
    List TaskStatus × Except String (Tier1Result × Tier2Result × Tier3Result) :=
  let msgs := messages.getD []
  let evs0 := [workingStart tid]
  match orchHit env .beforeSends with
  | some e => (evs0, .error e)
  | none =>
    let sendEvs := msgs.enum.map (fun p => msgStatus tid p.1 msgs.length)
    let traces := sendTraces env agent_url msgs
    match orchHit env .afterSends with
    | some e => (evs0 ++ sendEvs, .error e)
    | none =>
      let evs1 := evs0 ++ sendEvs ++
        [tierStatus tid (mkRat 3 5) "Running Tier 1 graph evaluation"]
      let tier1_result := evaluate_tier1 env.tier1Raise traces
      match orchHit env .afterTier1 with
      | some e => (evs1, .error e)
      | none =>
        let evs2 := evs1 ++
          [tierStatus tid (mkRat 4 5) "Running Tier 2 LLM judge evaluation"]
        let tier2_result := evaluate_tier2 env.tier2Raise env.judgeRemote traces
        match orchHit env .afterTier2 with
        | some e => (evs2, .error e)
        | none =>
          let evs3 := evs2 ++
            [tierStatus tid (mkRat 9 10) "Running Tier 3 text metrics evaluation"]
          let tier3_result := evaluate_tier3 env.tier3Raise traces
          match orchHit env .afterTier3 with
          | some e => (evs3, .error e)
          | none =>
            (evs3 ++ [completedStatus tid],
             .ok (tier1_result, tier2_result, tier3_result))

/-- An observable event of one `execute` call: a task-table write or the
`messenger.close()` call of the `finally` block. -/
inductive Ev where
  | write (st : TaskStatus)
  | close
deriving DecidableEq, Repr

def Ev.isClose : Ev → Bool
  | .close => true
  | .write _ => false

/-- Model of `Executor.execute`: registers the pending state, runs the `try` block,
converts an escaped exception into the failed status and result
(`except Exception` branch), and — `finally` — closes the messenger. -/
def execute (env : ExecEnv) (tid agent_url : String)
    (messages : Option (List String)) : TaskResult × List Ev :=
  let (ws, r) := executeTry env tid agent_url messages
  match r with
  | .ok results =>
    ({ task_id := tid, state := "completed", results := some results },
     Ev.write (pendingStatus tid) :: ws.map Ev.write ++ [Ev.close])
  | .error e =>
    ({ task_id := tid, state := "failed", results := none },
     Ev.write (pendingStatus tid) :: ws.map Ev.write ++
       [Ev.write (failedStatus tid e), Ev.close])

/-- The task-table writes of one `execute` call, in order. -/
def execWriteStatuses (env : ExecEnv) (tid agent_url : String)
    (messages : Option (List String)) : List TaskStatus :=
  (execute env tid agent_url messages).2.filterMap
    (fun e => match e with | .write s => some s | .close => none)

/-- Model of `Executor.cancel_task` acting on the single task-table entry for its id:
transitions pending/working entries to canceled, returns `False` and leaves
the entry alone otherwise (unknown id included). -/
def cancel_task (entry : Option TaskStatus) (tid : String) :
    Bool × Option TaskStatus :=
  match entry with
  | some task =>
    if task.state = "pending" ∨ task.state = "working" then
      (true, some (canceledStatus tid))
    else (false, some task)
  | none => (false, none)

/-- One operation on the table entry of a task in an interleaved schedule: a write
performed by `execute` (unconditional dictionary assignment) or a concurrent
`cancel_task` call. -/
inductive TableOp where
  | exec (st : TaskStatus)
  | cancelCall
deriving DecidableEq, Repr

def applyOp (tid : String) (t : Option TaskStatus) : TableOp → Option TaskStatus
  | .exec st => some st
  | .cancelCall => (cancel_task t tid).2

/-! ## Auxiliary definitions for the statements -/

/-- Holds when `pat` occurs as a contiguous substring of `s`. -/
def ContainsSubstr (s pat : String) : Prop :=
  ∃ a b : String, s = a ++ pat ++ b

/-- Remove consecutive duplicates, keeping the first of each run: the
sequence of distinct states a monotone watcher of the task table observes. -/
def collapse : List String → List String
  | [] => []
  | [a] => [a]
  | a :: b :: rest =>
    if a = b then collapse (b :: rest) else a :: collapse (b :: rest)

/-- A successful trace (status 200, no error), for concrete instances. -/
def okTrace : TraceData :=
  { timestamp := "t", agent_url := "u", message := "m", response := "ok",
    status_code := some 200 }

/-- A failed trace (error set, no status code), for concrete instances. -/
def errTrace : TraceData :=
  { timestamp := "t", agent_url := "u", message := "m", response := "",
    error := some "timeout" }

/-- Ten traces, nine successes and one error. -/
def tenTraces : List TraceData := List.replicate 9 okTrace ++ [errTrace]

/-- A messenger with three cached clients: one whose `close()` raises, one
that closes cleanly, one with no `close` attribute. -/
def witMessenger : Messenger :=
  { traces := [],
    clients := [("a", { hasClose := true, closeFails := some "boom" }),
                ("b", { hasClose := true, closeFails := none }),
                ("c", { hasClose := false, closeFails := none })] }

/-- An environment whose tier-2 evaluator raises; everything else succeeds. -/
def envTier2Fails : ExecEnv :=
  { send := fun _ => .success (some "task-1") "pong",
    time := fun _ => "ts",
    tier2Raise := some "judge exploded" }

/-- A plain environment: no injected failures, no remote judge. -/
def envPlain : ExecEnv :=
  { send := fun _ => .failure none "unused", time := fun _ => "ts" }

/-- The task-table writes of a concrete `execute` run with no messages. -/
def cexWrites : List TaskStatus := execWriteStatuses envPlain "t1" "u" (some [])

/-- The writes of that run with a concurrent `cancel_task` interleaved after the
second write (i.e. at an `await` point while the task is `working`). -/
def cexSchedule : List TableOp :=
  (cexWrites.take 2).map TableOp.exec ++ [TableOp.cancelCall] ++
    (cexWrites.drop 2).map TableOp.exec

/-! # Theorems -/

/-! ### The computable rational operations are the standard ones -/

theorem ratCastDen_ne_zero (q : ℚ) : ((q.den : ℚ)) ≠ 0 :=
  Nat.cast_ne_zero.mpr q.den_nz

theorem ratCastNum_eq (q : ℚ) : ((q.num : ℚ)) = q * (q.den : ℚ) :=
  (div_eq_iff (ratCastDen_ne_zero q)).mp (Rat.num_div_den q)

theorem qAdd_eq_add (a b : ℚ) : qAdd a b = a + b := by
  rw [qAdd, Rat.divInt_eq_div]
  push_cast
  rw [div_eq_iff (mul_ne_zero (ratCastDen_ne_zero a) (ratCastDen_ne_zero b)),
    ratCastNum_eq a, ratCastNum_eq b]
  ring

theorem qSub_eq_sub (a b : ℚ) : qSub a b = a - b := by
  rw [qSub, Rat.divInt_eq_div]
  push_cast
  rw [div_eq_iff (mul_ne_zero (ratCastDen_ne_zero a) (ratCastDen_ne_zero b)),
    ratCastNum_eq a, ratCastNum_eq b]
  ring

theorem qMul_eq_mul (a b : ℚ) : qMul a b = a * b := by
  rw [qMul, Rat.divInt_eq_div]
  push_cast
  rw [div_eq_iff (mul_ne_zero (ratCastDen_ne_zero a) (ratCastDen_ne_zero b)),
    ratCastNum_eq a, ratCastNum_eq b]
  ring

theorem qDiv_eq_div (a b : ℚ) : qDiv a b = a / b := by
  rcases eq_or_ne b 0 with rfl | hb
  · simp [qDiv]
  · have hbn : ((b.num : ℚ)) ≠ 0 := by
      exact_mod_cast Rat.num_ne_zero.mpr hb
    rw [qDiv, Rat.divInt_eq_div]
    push_cast
    rw [div_eq_div_iff (mul_ne_zero (ratCastDen_ne_zero a) hbn) hb,
      ratCastNum_eq a, ratCastNum_eq b]
    ring

/-! ### C6: similarity boundary values -/

/-- C6: the similarity scorer satisfies the boundary values of the spec:
`score("", "")` is 1.0, `score("a", "")` is 0.0,
`score("hello world", "hello world")` is 1.0, and
`score("a b c", "d e f")` has token_overlap 0.0, length_ratio 1.0 and
similarity_score 0.3 (= clamp(0.7·0 + 0.3·1, 0, 1)) with method
"token_overlap". -/
theorem similarity_boundary_values :
    (TextMetrics.evaluate "" "").similarity_score = 1 ∧
    (TextMetrics.evaluate "a" "").similarity_score = 0 ∧
    (TextMetrics.evaluate "hello world" "hello world").similarity_score = 1 ∧
    TextMetrics.evaluate "a b c" "d e f" =
      { similarity_score := mkRat 3 10, response := "a b c",
        reference := "d e f", method := some "token_overlap",
        details := some [("token_overlap", 0), ("length_ratio", 1)] } ∧
    mkRat 3 10 = 3 / 10 := by
  refine ⟨by decide, by decide, by decide, by decide, ?_⟩
  norm_num [Rat.mkRat_eq_div]

/-! ### C9: idempotent messenger close -/

theorem closeClients_names (cs : List (String × ClientModel)) :
    (closeClients cs).map Prod.fst =
      (cs.filter (fun c => c.2.hasClose)).map Prod.fst := by
  induction cs with
  | nil => rfl
  | cons c rest ih =>
    obtain ⟨nm, cl⟩ := c
    cases hc : cl.hasClose <;> simp [closeClients, hc, ih]

theorem closeState_clients (st : Messenger) : st.closeState.clients = [] := rfl

theorem closeState_idem (st : Messenger) : st.closeState.closeState = st.closeState := rfl

theorem closeState_iter (k : ℕ) (st : Messenger) :
    Messenger.closeState^[k] st.close.1 = st.close.1 := by
  induction k with
  | zero => rfl
  | succ m ih =>
    rw [Function.iterate_succ_apply]
    have h : st.close.1.closeState = st.close.1 := rfl
    rw [h, ih]

/-- C9: for every `N ≥ 1` and every starting client cache, calling
`Messenger.close` N times raises no exception (it is a total function) and
leaves the same observable state as calling it once — the cache is empty
after the first call and the trace list is untouched; moreover every cached
client with a `close` method receives a close attempt, independent of
failures of the close calls of the other clients. -/
theorem close_idempotent (n : ℕ) (hn : 1 ≤ n) (st : Messenger) :
    Messenger.closeState^[n] st = st.close.1 ∧
    st.close.1.clients = [] ∧
    st.close.1.traces = st.traces ∧
    st.close.2.map Prod.fst =
      (st.clients.filter (fun c => c.2.hasClose)).map Prod.fst := by
  refine ⟨?_, rfl, rfl, closeClients_names st.clients⟩
  obtain ⟨m, rfl⟩ := Nat.exists_eq_add_of_le hn
  rw [add_comm, Function.iterate_add_apply]
  have h1 : Messenger.closeState^[1] st = st.close.1 := rfl
  rw [h1, closeState_iter]

/-- Witness for C9 at `N = 2` and a three-client cache (one client whose
close raises, one that closes cleanly, one without a close method). -/
theorem close_idempotent_witness :
    Messenger.closeState^[2] witMessenger = witMessenger.close.1 ∧
    witMessenger.close.1.clients = [] ∧
    witMessenger.close.1.traces = witMessenger.traces ∧
    witMessenger.close.2.map Prod.fst =
      (witMessenger.clients.filter (fun c => c.2.hasClose)).map Prod.fst :=
  close_idempotent 2 (by decide) witMessenger

/-! ### C3: traces appended by talk_to_agent -/

/-- C3 counterexample: when the event stream ends without a terminal
"completed" event, `talk_to_agent` appends a trace with empty response,
status code 200 and no error — satisfying neither arm of the claimed
invariant — and returns the empty response normally instead of signaling a
failure. -/
theorem talk_missing_terminal_cex :
    talk_to_agent (.stream none []) "u" "m" "ts" =
      (.ok "", { timestamp := "ts", agent_url := "u", message := "m",
                 response := "", status_code := some 200 }) ∧
    ¬ ((talk_to_agent (.stream none []) "u" "m" "ts").2.response ≠ "" ∧
        (talk_to_agent (.stream none []) "u" "m" "ts").2.error = none) ∧
    ¬ (talk_to_agent (.stream none []) "u" "m" "ts").2.error ≠ none := by
  refine ⟨rfl, ?_, ?_⟩ <;> decide

/-- C3 (amended): if connection, send or iteration raises, a failure trace is
appended (empty response, error set, no status code) and the exception is
signaled to the caller; if the event stream ends without a terminal
"completed" event, a trace with empty response, status code 200 and NO error
is appended and the empty string is returned without signaling failure.
Every appended trace has either no error with status code 200, or an
error set with no status code. -/
theorem talk_to_agent_trace_shape (o : TalkOutcome) (url msg ts : String) :
    (∀ tid e, o = .raise tid e →
      talk_to_agent o url msg ts =
        (.error e, { timestamp := ts, agent_url := url, message := msg,
                     response := "", error := some e, task_id := tid })) ∧
    (∀ tid events, o = .stream tid events → findResponse events = none →
      talk_to_agent o url msg ts =
        (.ok "", { timestamp := ts, agent_url := url, message := msg,
                   response := "", status_code := some 200, task_id := tid })) ∧
    ((talk_to_agent o url msg ts).2.error = none ∧
       (talk_to_agent o url msg ts).2.status_code = some 200 ∨
     (talk_to_agent o url msg ts).2.error ≠ none ∧
       (talk_to_agent o url msg ts).2.status_code = none) := by
  refine ⟨?_, ?_, ?_⟩
  · rintro tid e rfl
    rfl
  · rintro tid events rfl hfind
    simp [talk_to_agent, hfind]
  · cases o with
    | raise tid e => right; simp [talk_to_agent]
    | stream tid events => left; simp [talk_to_agent]

/-- Witness for the amended theorem of C3: the empty stream. -/
theorem talk_to_agent_trace_shape_witness :
    talk_to_agent (.stream (some "task-7") []) "w" "x" "y" =
      (.ok "", { timestamp := "y", agent_url := "w", message := "x",
                 response := "", status_code := some 200,
                 task_id := some "task-7" }) :=
  (talk_to_agent_trace_shape (.stream (some "task-7") []) "w" "x" "y").2.1
    (some "task-7") [] rfl rfl

/-! ### C5: fallback judgment at 9/10 success -/

theorem fallback_at_9_of_10 (traces : List TraceData)
    (hlen : traces.length = 10) (hsucc : countSuccess traces = 9)
    (herr : countError traces = 1) :
    fallback_evaluate traces =
      { overall_score := mkRat 9 10,
        reasoning := "Agent demonstrated excellent coordination with 90% success rate across 10 interactions. 1 errors encountered",
        coordination_quality := some "Excellent",
        strengths := some ["High success rate", "Consistent performance",
                           "Reliable communication"],
        weaknesses := some ["Minor occasional failures"] } := by
  unfold fallback_evaluate
  rw [hlen, hsucc, herr]
  decide

/-- C5: for every trace list of length 10 with 9 successes (status 200, no
error) and 1 errored trace, the rule-based fallback judgment has
overall_score 0.9, coordination_quality "Excellent", weaknesses exactly
["Minor occasional failures"], and a reasoning string containing "90%",
"10 interactions" and "1 errors encountered". -/
theorem fallback_ninety_percent (traces : List TraceData)
    (hlen : traces.length = 10) (hsucc : countSuccess traces = 9)
    (herr : countError traces = 1) :
    (fallback_evaluate traces).overall_score = 9 / 10 ∧
    (fallback_evaluate traces).coordination_quality = some "Excellent" ∧
    (fallback_evaluate traces).weaknesses = some ["Minor occasional failures"] ∧
    ContainsSubstr (fallback_evaluate traces).reasoning "90%" ∧
    ContainsSubstr (fallback_evaluate traces).reasoning "10 interactions" ∧
    ContainsSubstr (fallback_evaluate traces).reasoning "1 errors encountered" := by
  rw [fallback_at_9_of_10 traces hlen hsucc herr]
  refine ⟨by norm_num [Rat.mkRat_eq_div], rfl, rfl, ?_, ?_, ?_⟩
  · exact ⟨"Agent demonstrated excellent coordination with ",
      " success rate across 10 interactions. 1 errors encountered", by decide⟩
  · exact ⟨"Agent demonstrated excellent coordination with 90% success rate across ",
      ". 1 errors encountered", by decide⟩
  · exact ⟨"Agent demonstrated excellent coordination with 90% success rate across 10 interactions. ",
      "", by decide⟩

/-- Witness for C5: nine status-200 traces and one errored trace. -/
theorem fallback_ninety_percent_witness :
    tenTraces.length = 10 ∧ countSuccess tenTraces = 9 ∧
    countError tenTraces = 1 ∧
    ((fallback_evaluate tenTraces).overall_score = 9 / 10 ∧
     (fallback_evaluate tenTraces).coordination_quality = some "Excellent" ∧
     (fallback_evaluate tenTraces).weaknesses = some ["Minor occasional failures"] ∧
     ContainsSubstr (fallback_evaluate tenTraces).reasoning "90%" ∧
     ContainsSubstr (fallback_evaluate tenTraces).reasoning "10 interactions" ∧
     ContainsSubstr (fallback_evaluate tenTraces).reasoning "1 errors encountered") :=
  ⟨by decide, by decide, by decide,
   fallback_ninety_percent tenTraces (by decide) (by decide) (by decide)⟩

/-! ### C7: the Poor and perfect bands -/

/-- C7 counterexample: a single errored trace has success rate 0 (< 0.5) and
quality "Poor", but the strengths field of the judgment is `None` — not the empty
list the claim states (`strengths if strengths else None` converts the empty
list to `None`); likewise the weaknesses field of a perfect run is `None`, not an
empty list. -/
theorem poor_strengths_cex :
    ([errTrace] : List TraceData) ≠ [] ∧
    successRate [errTrace] = 0 ∧ (0 : ℚ) < 1 / 2 ∧
    (fallback_evaluate [errTrace]).coordination_quality = some "Poor" ∧
    (fallback_evaluate [errTrace]).strengths ≠ some [] ∧
    (fallback_evaluate [errTrace]).strengths = none ∧
    successRate [okTrace] = 1 ∧
    (fallback_evaluate [okTrace]).weaknesses ≠ some [] ∧
    (fallback_evaluate [okTrace]).weaknesses = none :=
  ⟨by decide, by decide, by norm_num, by decide, by decide, by decide,
   by decide, by decide, by decide⟩

/-- C7 (amended): for every non-empty trace list with fallback success rate
below 0.5 the judgment has coordination_quality "Poor" and its strengths
field is absent (`None`, the Python rendering of the empty strengths list);
for success rate exactly 1.0 the weaknesses field is likewise absent
(`None`). -/
theorem fallback_poor_and_perfect (traces : List TraceData) (_hne : traces ≠ []) :
    (successRate traces < 1 / 2 →
      (fallback_evaluate traces).coordination_quality = some "Poor" ∧
      (fallback_evaluate traces).strengths = none) ∧
    (successRate traces = 1 →
      (fallback_evaluate traces).weaknesses = none) := by
  have e9 : mkRat 9 10 = 9 / 10 := by norm_num [Rat.mkRat_eq_div]
  have e7 : mkRat 7 10 = 7 / 10 := by norm_num [Rat.mkRat_eq_div]
  have e5 : mkRat 1 2 = 1 / 2 := by norm_num [Rat.mkRat_eq_div]
  have hR : (if traces.length > 0 then
      qDiv (countSuccess traces : ℚ) (traces.length : ℚ) else 0) =
      successRate traces := rfl
  constructor
  · intro hr
    have h9 : ¬ successRate traces ≥ mkRat 9 10 := by rw [e9]; linarith
    have h7 : ¬ successRate traces ≥ mkRat 7 10 := by rw [e7]; linarith
    have h5 : ¬ successRate traces ≥ mkRat 1 2 := by rw [e5]; linarith
    simp only [fallback_evaluate, hR, if_neg h9, if_neg h7, if_neg h5]
    simp [pyOptList]
  · intro hr
    have h9 : successRate traces ≥ mkRat 9 10 := by rw [e9, hr]; norm_num
    simp only [fallback_evaluate, hR, if_pos h9, if_pos hr]
    simp [pyOptList]

/-- Witness for the amended theorem of C7: one errored trace (rate 0) for the
Poor half, one successful trace (rate 1) for the perfect half. -/
theorem fallback_poor_and_perfect_witness :
    ((fallback_evaluate [errTrace]).coordination_quality = some "Poor" ∧
     (fallback_evaluate [errTrace]).strengths = none) ∧
    (fallback_evaluate [okTrace]).weaknesses = none :=
  ⟨(fallback_poor_and_perfect [errTrace] (by decide)).1
     (by have h : successRate [errTrace] = 0 := by decide
         rw [h]; norm_num),
   (fallback_poor_and_perfect [okTrace] (by decide)).2 (by decide)⟩

/-! ### C1: the messenger is closed exactly once -/

theorem filter_isClose_map_write (ws : List TaskStatus) :
    (ws.map Ev.write).filter Ev.isClose = [] := by
  induction ws with
  | nil => rfl
  | cons a l ih => simp [Ev.isClose, ih]

theorem getLast?_snoc_close (l : List Ev) :
    (l ++ [Ev.close]).getLast? = some Ev.close := by
  rw [List.getLast?_append_cons]
  rfl

/-- The event list of any `execute` call is a run of writes followed by
the single `close` of the `finally` block. -/
theorem execute_events_eq (env : ExecEnv) (tid url : String)
    (messages : Option (List String)) :
    (execute env tid url messages).2 =
      (Ev.write (pendingStatus tid) ::
        ((executeTry env tid url messages).1.map Ev.write ++
          (match (executeTry env tid url messages).2 with
           | .ok _ => []
           | .error err => [Ev.write (failedStatus tid err)]))) ++ [Ev.close] := by
  simp only [execute]
  rcases h : executeTry env tid url messages with ⟨ws, r⟩
  cases r <;> simp

/-- C1: every `execute` call closes the messenger it created exactly once,
with the close as the final event before returning — both on the path that
returns a completed TaskResult and on the path where an orchestration
exception is caught and a failed TaskResult is returned. -/
theorem execute_close_exactly_once (env : ExecEnv) (tid url : String)
    (messages : Option (List String)) :
    ((execute env tid url messages).2.filter Ev.isClose).length = 1 ∧
    (execute env tid url messages).2.getLast? = some Ev.close ∧
    (execute env tid url messages).1.state =
      (match env.orchRaise with | none => "completed" | some _ => "failed") := by
  refine ⟨?_, ?_, ?_⟩
  · rw [execute_events_eq]
    cases h : (executeTry env tid url messages).2 with
    | ok v =>
      simp [List.filter_append, filter_isClose_map_write, Ev.isClose]
    | error err =>
      simp [List.filter_append, filter_isClose_map_write, Ev.isClose]
  · rw [execute_events_eq, getLast?_snoc_close]
  · rcases horch : env.orchRaise with _ | ⟨p, e⟩
    · simp [execute, executeTry, orchHit, horch]
    · cases p <;> simp [execute, executeTry, orchHit, horch]

/-! ### C2: tier failure isolation -/

/-- C2: when orchestration itself does not fail, the task completes and the
aggregated results hold one slot per tier, where the slot of a raising tier is
the error mapping carrying the exception message of that tier while each
non-raising tier has its normally computed result in its slot — the failure of one tier
never aborts the task or its sibling tiers. -/
theorem tier_failure_isolation (env : ExecEnv) (tid url : String)
    (messages : Option (List String)) (h : env.orchRaise = none) :
    (execute env tid url messages).1.state = "completed" ∧
    (execute env tid url messages).1.results =
      some (evaluate_tier1 env.tier1Raise (sendTraces env url (messages.getD [])),
            evaluate_tier2 env.tier2Raise env.judgeRemote
              (sendTraces env url (messages.getD [])),
            evaluate_tier3 env.tier3Raise (sendTraces env url (messages.getD []))) ∧
    (∀ e, env.tier1Raise = some e →
      (evaluate_tier1 env.tier1Raise
        (sendTraces env url (messages.getD []))).errorKey = some e) ∧
    (∀ e, env.tier2Raise = some e →
      (evaluate_tier2 env.tier2Raise env.judgeRemote
        (sendTraces env url (messages.getD []))).errorKey = some e) ∧
    (∀ e, env.tier3Raise = some e →
      (evaluate_tier3 env.tier3Raise
        (sendTraces env url (messages.getD []))).errorKey = some e) := by
  refine ⟨?_, ?_, ?_, ?_, ?_⟩
  · simp [execute, executeTry, orchHit, h]
  · simp [execute, executeTry, orchHit, h]
  · intro e he
    simp [evaluate_tier1, he, Tier1Result.errorKey]
  · intro e he
    simp [evaluate_tier2, he, Tier2Result.errorKey]
  · intro e he
    simp [evaluate_tier3, he, Tier3Result.errorKey]

/-- Witness for C2: a concrete run whose tier-2 evaluator raises
"judge exploded" while the other tiers compute normally. -/
theorem tier_failure_isolation_witness :
    (execute envTier2Fails "t" "u" (some ["hi"])).1.state = "completed" ∧
    (execute envTier2Fails "t" "u" (some ["hi"])).1.results =
      some (evaluate_tier1 envTier2Fails.tier1Raise
              (sendTraces envTier2Fails "u" ((some ["hi"] : Option (List String)).getD [])),
            evaluate_tier2 envTier2Fails.tier2Raise envTier2Fails.judgeRemote
              (sendTraces envTier2Fails "u" ((some ["hi"] : Option (List String)).getD [])),
            evaluate_tier3 envTier2Fails.tier3Raise
              (sendTraces envTier2Fails "u" ((some ["hi"] : Option (List String)).getD []))) ∧
    (∀ e, envTier2Fails.tier1Raise = some e →
      (evaluate_tier1 envTier2Fails.tier1Raise
        (sendTraces envTier2Fails "u" ((some ["hi"] : Option (List String)).getD []))).errorKey = some e) ∧
    (∀ e, envTier2Fails.tier2Raise = some e →
      (evaluate_tier2 envTier2Fails.tier2Raise envTier2Fails.judgeRemote
        (sendTraces envTier2Fails "u" ((some ["hi"] : Option (List String)).getD []))).errorKey = some e) ∧
    (∀ e, envTier2Fails.tier3Raise = some e →
      (evaluate_tier3 envTier2Fails.tier3Raise
        (sendTraces envTier2Fails "u" ((some ["hi"] : Option (List String)).getD []))).errorKey = some e) :=
  tier_failure_isolation envTier2Fails "t" "u" (some ["hi"]) rfl

/-! ### C8: empty message list end-to-end -/

/-- C8: with an empty message list (and no injected failures), `execute`
returns a completed TaskResult whose graph tier reports node_count 0 and
edge_count 0, whose similarity tier reports the
mapping with error key "No traces available" and similarity_score 0.0, and
whose judgment tier reports the empty-traces judgment with overall_score 0. -/
theorem execute_empty_messages (env : ExecEnv) (tid url : String)
    (h0 : env.orchRaise = none) (h1 : env.tier1Raise = none)
    (h2 : env.tier2Raise = none) (h3 : env.tier3Raise = none) :
    (execute env tid url (some [])).1 =
      { task_id := tid, state := "completed",
        results := some
          (.metrics { node_count := 0, edge_count := 0 },
           .judgment emptyJudgment,
           .errScore "No traces available" 0) } ∧
    emptyJudgment.overall_score = 0 := by
  refine ⟨?_, rfl⟩
  have htr : sendTraces env url [] = [] := rfl
  have ht1 : evaluate_tier1 env.tier1Raise [] =
      .metrics { node_count := 0, edge_count := 0 } := by
    rw [h1]; decide
  have ht2 : evaluate_tier2 env.tier2Raise env.judgeRemote [] =
      .judgment emptyJudgment := by
    rw [h2]; rfl
  have ht3 : evaluate_tier3 env.tier3Raise [] =
      .errScore "No traces available" 0 := by
    rw [h3]; rfl
  simp [execute, executeTry, orchHit, h0, htr, ht1, ht2, ht3]

/-- Witness for C8: the plain environment. -/
theorem execute_empty_messages_witness :
    (execute envPlain "t" "u" (some [])).1 =
      { task_id := "t", state := "completed",
        results := some
          (.metrics { node_count := 0, edge_count := 0 },
           .judgment emptyJudgment,
           .errScore "No traces available" 0) } ∧
    emptyJudgment.overall_score = 0 :=
  execute_empty_messages envPlain "t" "u" rfl rfl rfl rfl

/-! ### C4: task lifecycle -/

theorem filterMap_write (ws : List TaskStatus) :
    ws.filterMap
      ((fun e => match e with | Ev.write s => some s | Ev.close => none) ∘
        Ev.write) = ws := by
  induction ws with
  | nil => rfl
  | cons a l ih => simp only [List.filterMap_cons, Function.comp_apply, ih]

/-- The raw status writes of one `execute` call: the pending write, the
writes of the `try` block, and the failed write when an orchestration
exception was caught. -/
theorem execWriteStatuses_eq (env : ExecEnv) (tid url : String)
    (messages : Option (List String)) :
    execWriteStatuses env tid url messages =
      pendingStatus tid :: ((executeTry env tid url messages).1 ++
        (match (executeTry env tid url messages).2 with
         | .ok _ => []
         | .error err => [failedStatus tid err])) := by
  unfold execWriteStatuses
  rw [execute_events_eq]
  cases h : (executeTry env tid url messages).2 <;>
    simp [List.filterMap_append, filterMap_write]

theorem collapse_working_chain (l : List String) (t : String)
    (hl : ∀ x ∈ l, x = "working") (ht : t ≠ "working") :
    collapse ("working" :: (l ++ [t])) = ["working", t] := by
  induction l with
  | nil =>
    simp only [List.nil_append, collapse]
    rw [if_neg (fun h => ht h.symm)]
  | cons a l ih =>
    have ha : a = "working" := hl a (by simp)
    subst ha
    rw [List.cons_append]
    show collapse ("working" :: "working" :: (l ++ [t])) = _
    rw [collapse, if_pos rfl]
    exact ih (fun x hx => hl x (by simp [hx]))

theorem collapse_pending_chain (l : List String) (t : String)
    (hl : ∀ x ∈ l, x = "working") (ht : t ≠ "working") :
    collapse ("pending" :: "working" :: (l ++ [t])) = ["pending", "working", t] := by
  rw [collapse, if_neg (by decide), collapse_working_chain l t hl ht]

theorem sendStates_working (tid : String) (msgs : List String) :
    ∀ x ∈ (msgs.enum.map (fun p => msgStatus tid p.1 msgs.length)).map
        TaskStatus.state, x = "working" := by
  intro x hx
  simp only [List.map_map, List.mem_map] at hx
  obtain ⟨p, _, rfl⟩ := hx
  rfl

/-- C4 counterexample: interleaving a `cancel_task` call between two awaits
of a concurrently running `execute` (here: right after the task reached
`working`).  `cancel_task` sets the entry to canceled, but the later writes
of `execute` are unconditional dictionary assignments, so the terminal
canceled state is replaced — at the end the entry reads `completed`, violating the
claimed terminal-state protection. -/
theorem canceled_overwritten_cex :
    (cexSchedule.take 3).foldl (applyOp "t1") none = some (canceledStatus "t1") ∧
    cexSchedule.foldl (applyOp "t1") none = some (completedStatus "t1") ∧
    (canceledStatus "t1").state = "canceled" ∧
    (completedStatus "t1").state = "completed" ∧
    (cexWrites.map TaskStatus.state) =
      ["pending", "working", "working", "working", "working", "completed"] := by
  refine ⟨by decide, by decide, rfl, rfl, by decide⟩

/-- C4 (amended): within a single `execute` call (no concurrent cancel) the
sequence of distinct states written to the task table is exactly
pending → working → completed, or pending → working → failed on the
orchestration-exception path, with no state revisited and no transition out
of a terminal state; `cancel_task` transitions only pending/working entries
to canceled and returns false for unknown or already-terminal entries.  The
terminal-protection half of the original claim fails, however: the
completion write at the end of a concurrently running `execute` is an
unconditional assignment that replaces a canceled state (see the
counterexample). -/
theorem task_lifecycle_monotone (env : ExecEnv) (tid url : String)
    (messages : Option (List String)) :
    collapse ((execWriteStatuses env tid url messages).map TaskStatus.state) =
      (match env.orchRaise with
       | none => ["pending", "working", "completed"]
       | some _ => ["pending", "working", "failed"]) ∧
    cancel_task (some (completedStatus tid)) tid = (false, some (completedStatus tid)) ∧
    cancel_task (some (failedStatus tid "e")) tid = (false, some (failedStatus tid "e")) ∧
    cancel_task (some (canceledStatus tid)) tid = (false, some (canceledStatus tid)) ∧
    cancel_task (some (pendingStatus tid)) tid = (true, some (canceledStatus tid)) ∧
    cancel_task (some (workingStart tid)) tid = (true, some (canceledStatus tid)) ∧
    cancel_task none tid = (false, none) := by
  refine ⟨?_, rfl, rfl, rfl, rfl, rfl, rfl⟩
  rw [execWriteStatuses_eq]
  rcases horch : env.orchRaise with _ | ⟨p, e⟩
  · have h : executeTry env tid url messages =
        ([workingStart tid] ++
          (messages.getD []).enum.map
            (fun p => msgStatus tid p.1 (messages.getD []).length) ++
          [tierStatus tid (mkRat 3 5) "Running Tier 1 graph evaluation"] ++
          [tierStatus tid (mkRat 4 5) "Running Tier 2 LLM judge evaluation"] ++
          [tierStatus tid (mkRat 9 10) "Running Tier 3 text metrics evaluation"] ++
          [completedStatus tid],
         .ok (evaluate_tier1 env.tier1Raise (sendTraces env url (messages.getD [])),
              evaluate_tier2 env.tier2Raise env.judgeRemote
                (sendTraces env url (messages.getD [])),
              evaluate_tier3 env.tier3Raise (sendTraces env url (messages.getD [])))) := by
      simp [executeTry, orchHit, horch]
    rw [h]
    simp only [List.append_nil, List.map_append, List.map_cons, List.map_nil,
      List.cons_append, List.nil_append, List.append_assoc, pendingStatus,
      workingStart, tierStatus, completedStatus, failedStatus]
    rw [show ((messages.getD []).enum.map
          (fun p => msgStatus tid p.1 (messages.getD []).length)).map TaskStatus.state ++
          ["working", "working", "working", "completed"] =
        (((messages.getD []).enum.map
          (fun p => msgStatus tid p.1 (messages.getD []).length)).map TaskStatus.state ++
          ["working", "working", "working"]) ++ ["completed"] by simp]
    refine collapse_pending_chain _ _ ?_ (by decide)
    intro x hx
    rcases List.mem_append.mp hx with h1 | h2
    · exact sendStates_working tid (messages.getD []) x h1
    · simpa using h2
  · cases p
    case beforeSends =>
      have h : executeTry env tid url messages = ([workingStart tid], .error e) := by
        simp [executeTry, orchHit, horch]
      rw [h]
      rfl
    case afterSends =>
      have h : executeTry env tid url messages =
          ([workingStart tid] ++
            (messages.getD []).enum.map
              (fun p => msgStatus tid p.1 (messages.getD []).length),
           .error e) := by
        simp [executeTry, orchHit, horch]
      rw [h]
      simp only [List.map_append, List.map_cons, List.map_nil, List.cons_append,
        List.nil_append, List.append_assoc, pendingStatus, workingStart,
        tierStatus, completedStatus, failedStatus]
      exact collapse_pending_chain _ _ (sendStates_working tid (messages.getD []))
        (by decide)
    case afterTier1 =>
      have h : executeTry env tid url messages =
          ([workingStart tid] ++
            (messages.getD []).enum.map
              (fun p => msgStatus tid p.1 (messages.getD []).length) ++
            [tierStatus tid (mkRat 3 5) "Running Tier 1 graph evaluation"],
           .error e) := by
        simp [executeTry, orchHit, horch]
      rw [h]
      simp only [List.map_append, List.map_cons, List.map_nil, List.cons_append,
        List.nil_append, List.append_assoc, pendingStatus, workingStart,
        tierStatus, completedStatus, failedStatus]
      rw [show ((messages.getD []).enum.map
            (fun p => msgStatus tid p.1 (messages.getD []).length)).map TaskStatus.state ++
            ["working", "failed"] =
          (((messages.getD []).enum.map
            (fun p => msgStatus tid p.1 (messages.getD []).length)).map TaskStatus.state ++
            ["working"]) ++ ["failed"] by simp]
      refine collapse_pending_chain _ _ ?_ (by decide)
      intro x hx
      rcases List.mem_append.mp hx with h1 | h2
      · exact sendStates_working tid (messages.getD []) x h1
      · simpa using h2
    case afterTier2 =>
      have h : executeTry env tid url messages =
          ([workingStart tid] ++
            (messages.getD []).enum.map
              (fun p => msgStatus tid p.1 (messages.getD []).length) ++
            [tierStatus tid (mkRat 3 5) "Running Tier 1 graph evaluation"] ++
            [tierStatus tid (mkRat 4 5) "Running Tier 2 LLM judge evaluation"],
           .error e) := by
        simp [executeTry, orchHit, horch]
      rw [h]
      simp only [List.map_append, List.map_cons, List.map_nil, List.cons_append,
        List.nil_append, List.append_assoc, pendingStatus, workingStart,
        tierStatus, completedStatus, failedStatus]
      rw [show ((messages.getD []).enum.map
            (fun p => msgStatus tid p.1 (messages.getD []).length)).map TaskStatus.state ++
            ["working", "working", "failed"] =
          (((messages.getD []).enum.map
            (fun p => msgStatus tid p.1 (messages.getD []).length)).map TaskStatus.state ++
            ["working", "working"]) ++ ["failed"] by simp]
      refine collapse_pending_chain _ _ ?_ (by decide)
      intro x hx
      rcases List.mem_append.mp hx with h1 | h2
      · exact sendStates_working tid (messages.getD []) x h1
      · simpa using h2
    case afterTier3 =>
      have h : executeTry env tid url messages =
          ([workingStart tid] ++
            (messages.getD []).enum.map
              (fun p => msgStatus tid p.1 (messages.getD []).length) ++
            [tierStatus tid (mkRat 3 5) "Running Tier 1 graph evaluation"] ++
            [tierStatus tid (mkRat 4 5) "Running Tier 2 LLM judge evaluation"] ++
            [tierStatus tid (mkRat 9 10) "Running Tier 3 text metrics evaluation"],
           .error e) := by
        simp [executeTry, orchHit, horch]
      rw [h]
      simp only [List.map_append, List.map_cons, List.map_nil, List.cons_append,
        List.nil_append, List.append_assoc, pendingStatus, workingStart,
        tierStatus, completedStatus, failedStatus]
      rw [show ((messages.getD []).enum.map
            (fun p => msgStatus tid p.1 (messages.getD []).length)).map TaskStatus.state ++
            ["working", "working", "working", "failed"] =
          (((messages.getD []).enum.map
            (fun p => msgStatus tid p.1 (messages.getD []).length)).map TaskStatus.state ++
            ["working", "working", "working"]) ++ ["failed"] by simp]
      refine collapse_pending_chain _ _ ?_ (by decide)
      intro x hx
      rcases List.mem_append.mp hx with h1 | h2
      · exact sendStates_working tid (messages.getD []) x h1
      · simpa using h2

end AgentBeats
